import Mathlib

/-!
Shallow embedding of the multi-factor scoring and recommendation engine in
`analysis.py` of the Stock-Portfolio-Manager repository.

Python floats are modelled as exact rationals extended with a NaN element
(`PFloat`): comparisons involving NaN are false, and arithmetic propagates
NaN, matching IEEE-754 comparison semantics that the Python code relies on
(`pd.isna`, comparisons against possibly-NaN moving averages).

Python dicts with optional keys are modelled as structures with `Option`
fields; `dict.get(k, d)` becomes `Option.getD`, and a direct subscript
`d[k]` on an optional field becomes a `match` whose missing-key branch
aborts the computation (Python `KeyError`), surfacing as `Option.none` in
the result of the enclosing pipeline.
-/

/-- A Python float value: either NaN or an exact rational. -/
inductive PFloat where
  | nan : PFloat
  | val : ℚ → PFloat
deriving DecidableEq, Repr

namespace PFloat

/-- IEEE-style `<`: false whenever either operand is NaN. -/
def lt : PFloat → PFloat → Bool
  | val a, val b => a < b
  | _, _ => false

/-- IEEE-style `>`: false whenever either operand is NaN. -/
def gt : PFloat → PFloat → Bool
  | val a, val b => a > b
  | _, _ => false

/-- Multiplication, propagating NaN. -/
def mul : PFloat → PFloat → PFloat
  | val a, val b => val (a * b)
  | _, _ => nan

/-- `pd.isna`. -/
def isna : PFloat → Bool
  | nan => true
  | val _ => false

end PFloat

/-- One externally computed VADER polarity score
(`analyzer.polarity_scores(headline['title'])`): the sentiment-lexicon
scoring of individual headline strings is an external collaborator, so the
aggregator is embedded as a function of the per-headline polarity scores. -/
structure Polarity where
  compound : ℚ
  pos : ℚ
  neg : ℚ
  neu : ℚ
deriving DecidableEq, Repr

/-- The dict returned by `analyze_sentiment`. -/
structure SentimentSummary where
  compound_score : ℚ
  sentiment : String
  positive_score : ℚ
  negative_score : ℚ
  neutral_score : ℚ
deriving DecidableEq, Repr

/-- `np.mean` of a list of rationals (callers guarantee nonempty, or the
default is irrelevant). -/
def listMean (l : List ℚ) : ℚ := l.sum / l.length

/-- `analysis.analyze_sentiment`, embedded over the list of per-headline
polarity scores produced by the external VADER collaborator (one per
headline, in headline order). -/
def analyze_sentiment (scores : List Polarity) : SentimentSummary :=
  if scores.isEmpty then
    { compound_score := 0
      sentiment := "Neutral"
      positive_score := 0
      negative_score := 0
      neutral_score := 0 }
  else
    let avg_compound := listMean (scores.map Polarity.compound)
    let avg_positive := listMean (scores.map Polarity.pos)
    let avg_negative := listMean (scores.map Polarity.neg)
    let avg_neutral := listMean (scores.map Polarity.neu)
    let sentiment :=
      if avg_compound > 0.2 then "Very Positive"
      else if avg_compound > 0.05 then "Positive"
      else if avg_compound < -0.2 then "Very Negative"
      else if avg_compound < -0.05 then "Negative"
      else "Neutral"
    { compound_score := avg_compound
      sentiment := sentiment
      positive_score := avg_positive
      negative_score := avg_negative
      neutral_score := avg_neutral }

/-- `analysis.calculate_momentum_signal`. -/
def calculate_momentum_signal (ma50 ma200 current_price rsi volatility : PFloat) :
    String :=
  if ma50.isna || ma200.isna then "Neutral"
  else
    let ma_signal := if PFloat.gt ma50 ma200 then "Bullish" else "Bearish"
    let price_vs_ma50 := if PFloat.gt current_price ma50 then "Above" else "Below"
    let rsi_signal :=
      if PFloat.gt rsi (PFloat.val 70) then "Overbought"
      else if PFloat.lt rsi (PFloat.val 30) then "Oversold"
      else "Neutral"
    let s1 : ℚ := if ma_signal = "Bullish" then 0.4 else
      if ma_signal = "Bearish" then -0.4 else 0
    let s2 : ℚ := s1 + (if price_vs_ma50 = "Above" then 0.3 else -0.3)
    let momentum_score : ℚ := s2 + (if rsi_signal = "Oversold" then 0.3 else
      if rsi_signal = "Overbought" then -0.3 else 0)
    if momentum_score > 0.3 then "Strong Bullish"
    else if momentum_score > 0.1 then "Bullish"
    else if momentum_score < -0.3 then "Strong Bearish"
    else if momentum_score < -0.1 then "Bearish"
    else "Neutral"

/-- The per-ticker snapshot dict built by the market-data collaborator
(`fetch_stock_data`).  `current_price` and `company_name` are required keys
(§7 of the data contract: callers must supply them); every other numeric
field is optional — `none` models a missing key, `some PFloat.nan` a key
present with a NaN value (the repository's "unknown" sentinel for moving
averages and indicators with an unfilled rolling window). -/
structure SecuritySnapshot where
  current_price : PFloat
  company_name : String
  ma20 : Option PFloat := none
  ma50 : Option PFloat := none
  ma200 : Option PFloat := none
  rsi : Option PFloat := none
  volatility : Option PFloat := none
  volume : Option PFloat := none
  avg_volume : Option PFloat := none
  price_change_1d : Option PFloat := none
  price_change_5d : Option PFloat := none
  price_change_1m : Option PFloat := none
  price_change_3m : Option PFloat := none
  price_change_6m : Option PFloat := none
  price_change_1y : Option PFloat := none
deriving DecidableEq, Repr

/-- The dict returned by `calculate_technical_score`. -/
structure TechnicalResult where
  score : ℚ
  signals : List String
  rsi : PFloat
  trend : String
deriving DecidableEq, Repr

/-- The RSI-rule condition of `calculate_technical_score`: `rsi < 30`. -/
def rsiOversoldCond (stock_data : SecuritySnapshot) : Bool :=
  PFloat.lt (stock_data.rsi.getD (PFloat.val 50)) (PFloat.val 30)

/-- The RSI-rule condition of `calculate_technical_score`: `rsi > 70`. -/
def rsiOverboughtCond (stock_data : SecuritySnapshot) : Bool :=
  PFloat.gt (stock_data.rsi.getD (PFloat.val 50)) (PFloat.val 70)

/-- Trend rule, first branch: `current_price > ma20 > ma50 > ma200`
(Python chained comparison, each MA defaulting to `current_price`). -/
def strongUptrendCond (stock_data : SecuritySnapshot) : Bool :=
  let current_price := stock_data.current_price
  PFloat.gt current_price (stock_data.ma20.getD current_price) &&
    PFloat.gt (stock_data.ma20.getD current_price) (stock_data.ma50.getD current_price) &&
    PFloat.gt (stock_data.ma50.getD current_price) (stock_data.ma200.getD current_price)

/-- Trend rule, second branch: `current_price > ma20 and ma20 > ma50`. -/
def uptrendCond (stock_data : SecuritySnapshot) : Bool :=
  let current_price := stock_data.current_price
  PFloat.gt current_price (stock_data.ma20.getD current_price) &&
    PFloat.gt (stock_data.ma20.getD current_price) (stock_data.ma50.getD current_price)

/-- Trend rule, third branch: `current_price < ma20 < ma50 < ma200`. -/
def strongDowntrendCond (stock_data : SecuritySnapshot) : Bool :=
  let current_price := stock_data.current_price
  PFloat.lt current_price (stock_data.ma20.getD current_price) &&
    PFloat.lt (stock_data.ma20.getD current_price) (stock_data.ma50.getD current_price) &&
    PFloat.lt (stock_data.ma50.getD current_price) (stock_data.ma200.getD current_price)

/-- Trend rule, fourth branch: `current_price < ma20 and ma20 < ma50`. -/
def downtrendCond (stock_data : SecuritySnapshot) : Bool :=
  let current_price := stock_data.current_price
  PFloat.lt current_price (stock_data.ma20.getD current_price) &&
    PFloat.lt (stock_data.ma20.getD current_price) (stock_data.ma50.getD current_price)

/-- Volume rule: `current_volume > avg_volume * 1.5` (defaults 0). -/
def highVolumeCond (stock_data : SecuritySnapshot) : Bool :=
  PFloat.gt (stock_data.volume.getD (PFloat.val 0))
    (PFloat.mul (stock_data.avg_volume.getD (PFloat.val 0)) (PFloat.val 1.5))

/-- Volume rule: `current_volume < avg_volume * 0.5` (defaults 0). -/
def lowVolumeCond (stock_data : SecuritySnapshot) : Bool :=
  PFloat.lt (stock_data.volume.getD (PFloat.val 0))
    (PFloat.mul (stock_data.avg_volume.getD (PFloat.val 0)) (PFloat.val 0.5))

/-- Volatility rule: `volatility > 0.05` (default 0). -/
def highVolatilityCond (stock_data : SecuritySnapshot) : Bool :=
  PFloat.gt (stock_data.volatility.getD (PFloat.val 0)) (PFloat.val 0.05)

/-- `analysis.calculate_technical_score`.  The Python function mutates a
`score` accumulator and a `signals` accumulator through four rules (RSI,
trend, volume, volatility, in that source order); here the two accumulators
are threaded as parallel sequential `let`s over the same branch conditions. -/
def calculate_technical_score (stock_data : SecuritySnapshot) : TechnicalResult :=
  let score1 : ℚ :=
    if rsiOversoldCond stock_data then 1
    else if rsiOverboughtCond stock_data then -1
    else 0.5
  let signals1 : List String :=
    if rsiOversoldCond stock_data then ["RSI Oversold"]
    else if rsiOverboughtCond stock_data then ["RSI Overbought"]
    else ["RSI Neutral"]
  let score2 : ℚ :=
    if strongUptrendCond stock_data then score1 + 2
    else if uptrendCond stock_data then score1 + 1
    else if strongDowntrendCond stock_data then score1 - 2
    else if downtrendCond stock_data then score1 - 1
    else score1
  let signals2 : List String :=
    if strongUptrendCond stock_data then signals1 ++ ["Strong Uptrend"]
    else if uptrendCond stock_data then signals1 ++ ["Uptrend"]
    else if strongDowntrendCond stock_data then signals1 ++ ["Strong Downtrend"]
    else if downtrendCond stock_data then signals1 ++ ["Downtrend"]
    else signals1 ++ ["Mixed Signals"]
  let score3 : ℚ :=
    if highVolumeCond stock_data then score2 + 0.5
    else if lowVolumeCond stock_data then score2 - 0.5
    else score2
  let signals3 : List String :=
    if highVolumeCond stock_data then signals2 ++ ["High Volume"]
    else if lowVolumeCond stock_data then signals2 ++ ["Low Volume"]
    else signals2
  let score4 : ℚ :=
    if highVolatilityCond stock_data then score3 + 0.3 else score3
  let signals4 : List String :=
    if highVolatilityCond stock_data then signals3 ++ ["High Volatility"] else signals3
  { score := score4
    signals := signals4
    rsi := stock_data.rsi.getD (PFloat.val 50)
    trend := if score4 > 0 then "Uptrend" else if score4 < 0 then "Downtrend" else "Sideways" }

/-- The price-change dict built by `analyze_portfolio` and consumed by
`generate_recommendation` (all six keys always present there). -/
structure PriceChanges where
  price_change_1d : PFloat
  price_change_5d : PFloat
  price_change_1m : PFloat
  price_change_3m : PFloat
  price_change_6m : PFloat
  price_change_1y : PFloat
deriving DecidableEq, Repr

/-- The dict returned by `generate_recommendation`. -/
structure Recommendation where
  action : String
  confidence : String
  reasoning : String
  score : ℚ
deriving DecidableEq, Repr

/-- The `momentum_scores` lookup table of `generate_recommendation`
(`dict.get` with default 0). -/
def momentum_scores (momentum : String) : ℤ :=
  if momentum = "Strong Bullish" then 2
  else if momentum = "Bullish" then 1
  else if momentum = "Neutral" then 0
  else if momentum = "Bearish" then -1
  else if momentum = "Strong Bearish" then -2
  else 0

/-- The `sentiment_scores` lookup table of `generate_recommendation`
(`dict.get` with default 0). -/
def sentiment_scores (sentiment : String) : ℤ :=
  if sentiment = "Very Positive" then 2
  else if sentiment = "Positive" then 1
  else if sentiment = "Neutral" then 0
  else if sentiment = "Negative" then -1
  else if sentiment = "Very Negative" then -2
  else 0

/-- `analysis.generate_recommendation`.  `analyst_score` is the numeric
consensus score produced by the analyst-data collaborator, always a real
number.  The 1-day/5-day comparisons use IEEE semantics (false on NaN), so
`price_score` is always a real rational. -/
def generate_recommendation (momentum sentiment : String) (analyst_score : ℚ)
    (technical_score : TechnicalResult) (price_changes : PriceChanges) :
    Recommendation :=
  let momentum_score := momentum_scores momentum
  let sentiment_score := sentiment_scores sentiment
  let technical_score_val := technical_score.score
  let p1 : ℚ :=
    if PFloat.gt price_changes.price_change_1d (PFloat.val 2) then 0.5
    else if PFloat.lt price_changes.price_change_1d (PFloat.val (-2)) then -0.5
    else 0
  let price_score : ℚ := p1 +
    (if PFloat.gt price_changes.price_change_5d (PFloat.val 5) then 0.3
     else if PFloat.lt price_changes.price_change_5d (PFloat.val (-5)) then -0.3
     else 0)
  let total_score : ℚ :=
    momentum_score * 0.25 + sentiment_score * 0.2 + analyst_score * 0.2 +
      technical_score_val * 0.25 + price_score * 0.1
  if total_score > 1.5 then
    { action := "Strong Buy", confidence := "High"
      reasoning := "Multiple positive signals across all indicators"
      score := total_score }
  else if total_score > 0.5 then
    { action := "Buy", confidence := "Medium"
      reasoning := "Generally positive signals with some mixed indicators"
      score := total_score }
  else if total_score > -0.5 then
    { action := "Hold", confidence := "Medium"
      reasoning := "Mixed signals, wait for clearer direction"
      score := total_score }
  else if total_score > -1.5 then
    { action := "Consider Selling", confidence := "Medium"
      reasoning := "Generally negative signals with some mixed indicators"
      score := total_score }
  else
    { action := "Strong Sell", confidence := "High"
      reasoning := "Multiple negative signals across all indicators"
      score := total_score }

/-- One analyst-consensus record (`fetch_analyst_recommendations` always
returns both keys; `analyze_portfolio` defaults to `{Hold, 0}`). -/
structure AnalystInfo where
  consensus : String
  score : ℚ
deriving DecidableEq, Repr

/-- The per-ticker result dict built by `analyze_portfolio`. -/
structure AnalysisResult where
  current_price : PFloat
  ma50 : PFloat
  ma200 : PFloat
  ma20 : PFloat
  momentum : String
  sentiment_score : ℚ
  sentiment : String
  analyst_consensus : String
  analyst_score : ℚ
  recommendation : Recommendation
  technical_analysis : TechnicalResult
  price_changes : PriceChanges
  headlines : List Polarity
  company_name : String
  rsi : PFloat
  volatility : PFloat
  volume : PFloat
  avg_volume : PFloat
deriving DecidableEq, Repr

/-- The body of `analyze_portfolio`'s per-ticker loop.  `headlines` is the
ticker's news list already scored by the external VADER collaborator;
`analyst_info` is `analyst_data.get(ticker, {'consensus': 'Hold', 'score': 0})`.
The direct subscripts `stock_info['ma50']` and `stock_info['ma200']`
(evaluated as arguments to `calculate_momentum_signal`, and again when the
result dict is built) raise `KeyError` when the key is missing, modelled by
`none`. -/
def analyzeTicker (stock_info : SecuritySnapshot) (headlines : List Polarity)
    (analyst_info : AnalystInfo) : Option AnalysisResult :=
  match stock_info.ma50, stock_info.ma200 with
  | some ma50v, some ma200v =>
    let momentum := calculate_momentum_signal ma50v ma200v stock_info.current_price
      (stock_info.rsi.getD (PFloat.val 50)) (stock_info.volatility.getD (PFloat.val 0))
    let sentiment_analysis := analyze_sentiment headlines
    let technical_analysis := calculate_technical_score stock_info
    let price_changes : PriceChanges :=
      { price_change_1d := stock_info.price_change_1d.getD (PFloat.val 0)
        price_change_5d := stock_info.price_change_5d.getD (PFloat.val 0)
        price_change_1m := stock_info.price_change_1m.getD (PFloat.val 0)
        price_change_3m := stock_info.price_change_3m.getD (PFloat.val 0)
        price_change_6m := stock_info.price_change_6m.getD (PFloat.val 0)
        price_change_1y := stock_info.price_change_1y.getD (PFloat.val 0) }
    let recommendation := generate_recommendation momentum
      sentiment_analysis.sentiment analyst_info.score technical_analysis price_changes
    some
      { current_price := stock_info.current_price
        ma50 := ma50v
        ma200 := ma200v
        ma20 := stock_info.ma20.getD stock_info.current_price
        momentum := momentum
        sentiment_score := sentiment_analysis.compound_score
        sentiment := sentiment_analysis.sentiment
        analyst_consensus := analyst_info.consensus
        analyst_score := analyst_info.score
        recommendation := recommendation
        technical_analysis := technical_analysis
        price_changes := price_changes
        headlines := headlines
        company_name := stock_info.company_name
        rsi := stock_info.rsi.getD (PFloat.val 50)
        volatility := stock_info.volatility.getD (PFloat.val 0)
        volume := stock_info.volume.getD (PFloat.val 0)
        avg_volume := stock_info.avg_volume.getD (PFloat.val 0) }
  | _, _ => none

/-- `analysis.analyze_portfolio`: the per-ticker loop over the snapshot map,
in iteration order.  A `KeyError` in any iteration aborts the whole call. -/
def analyze_portfolio
    (stocks : List (String × SecuritySnapshot × List Polarity × AnalystInfo)) :
    Option (List (String × AnalysisResult)) :=
  stocks.mapM fun t => (analyzeTicker t.2.1 t.2.2.1 t.2.2.2).map (t.1, ·)

/-- The metrics dict returned by `calculate_portfolio_metrics` on a
nonempty result set. -/
structure PortfolioMetrics where
  total_stocks : ℕ
  strong_buy_recommendations : ℕ
  buy_recommendations : ℕ
  hold_recommendations : ℕ
  sell_recommendations : ℕ
  strong_sell_recommendations : ℕ
  avg_sentiment : ℚ
  strong_bullish_momentum : ℕ
  bullish_momentum : ℕ
  neutral_momentum : ℕ
  bearish_momentum : ℕ
  strong_bearish_momentum : ℕ
  uptrend_count : ℕ
  downtrend_count : ℕ
  sideways_count : ℕ
deriving DecidableEq, Repr

/-- `analysis.calculate_portfolio_metrics` over the values of the
analysis-results dict.  The Python `if not analysis_results: return {}`
empty-mapping sentinel is `none`. -/
def calculate_portfolio_metrics (analysis_results : List AnalysisResult) :
    Option PortfolioMetrics :=
  if analysis_results.isEmpty then none
  else
    let recommendations := analysis_results.map fun r => r.recommendation.action
    let sentiment_scores := analysis_results.map AnalysisResult.sentiment_score
    let momentum_signals := analysis_results.map AnalysisResult.momentum
    let technical_trends := analysis_results.map fun r => r.technical_analysis.trend
    some
      { total_stocks := analysis_results.length
        strong_buy_recommendations := recommendations.count "Strong Buy"
        buy_recommendations := recommendations.count "Buy"
        hold_recommendations := recommendations.count "Hold"
        sell_recommendations := recommendations.count "Consider Selling"
        strong_sell_recommendations := recommendations.count "Strong Sell"
        avg_sentiment := if sentiment_scores.isEmpty then 0 else listMean sentiment_scores
        strong_bullish_momentum := momentum_signals.count "Strong Bullish"
        bullish_momentum := momentum_signals.count "Bullish"
        neutral_momentum := momentum_signals.count "Neutral"
        bearish_momentum := momentum_signals.count "Bearish"
        strong_bearish_momentum := momentum_signals.count "Strong Bearish"
        uptrend_count := technical_trends.count "Uptrend"
        downtrend_count := technical_trends.count "Downtrend"
        sideways_count := technical_trends.count "Sideways" }

/-! Derived views of `calculate_technical_score`, used to state its
invariants: the per-rule score contribution and the per-rule signal tags,
each read off the corresponding branch group of the source. -/

/-- Score contribution of the RSI rule. -/
def rsiContrib (s : SecuritySnapshot) : ℚ :=
  if rsiOversoldCond s then 1 else if rsiOverboughtCond s then -1 else 0.5

/-- Score contribution of the trend rule. -/
def trendContrib (s : SecuritySnapshot) : ℚ :=
  if strongUptrendCond s then 2
  else if uptrendCond s then 1
  else if strongDowntrendCond s then -2
  else if downtrendCond s then -1
  else 0

/-- Score contribution of the volume rule. -/
def volumeContrib (s : SecuritySnapshot) : ℚ :=
  if highVolumeCond s then 0.5 else if lowVolumeCond s then -0.5 else 0

/-- Score contribution of the volatility rule. -/
def volaContrib (s : SecuritySnapshot) : ℚ :=
  if highVolatilityCond s then 0.3 else 0

/-- The single RSI tag appended by the RSI rule. -/
def rsiTag (s : SecuritySnapshot) : String :=
  if rsiOversoldCond s then "RSI Oversold"
  else if rsiOverboughtCond s then "RSI Overbought"
  else "RSI Neutral"

/-- The single trend tag appended by the trend rule. -/
def trendTag (s : SecuritySnapshot) : String :=
  if strongUptrendCond s then "Strong Uptrend"
  else if uptrendCond s then "Uptrend"
  else if strongDowntrendCond s then "Strong Downtrend"
  else if downtrendCond s then "Downtrend"
  else "Mixed Signals"

/-- The volume tags appended by the volume rule (at most one). -/
def volumeTags (s : SecuritySnapshot) : List String :=
  if highVolumeCond s then ["High Volume"]
  else if lowVolumeCond s then ["Low Volume"]
  else []

/-- The volatility tags appended by the volatility rule (at most one). -/
def volatilityTags (s : SecuritySnapshot) : List String :=
  if highVolatilityCond s then ["High Volatility"] else []

/-- The weighted `total_score` of `generate_recommendation`, as a
standalone function of the same inputs. -/
def recTotal (momentum sentiment : String) (analyst_score : ℚ)
    (technical_score : TechnicalResult) (price_changes : PriceChanges) : ℚ :=
  momentum_scores momentum * 0.25 + sentiment_scores sentiment * 0.2 +
    analyst_score * 0.2 + technical_score.score * 0.25 +
    ((if PFloat.gt price_changes.price_change_1d (PFloat.val 2) then (0.5 : ℚ)
      else if PFloat.lt price_changes.price_change_1d (PFloat.val (-2)) then -0.5
      else 0) +
     (if PFloat.gt price_changes.price_change_5d (PFloat.val 5) then (0.3 : ℚ)
      else if PFloat.lt price_changes.price_change_5d (PFloat.val (-5)) then -0.3
      else 0)) * 0.1

/-- An all-zero price-change bundle (every key present with value 0), for
concrete instantiations. -/
def zeroPriceChanges : PriceChanges :=
  { price_change_1d := PFloat.val 0, price_change_5d := PFloat.val 0
    price_change_1m := PFloat.val 0, price_change_3m := PFloat.val 0
    price_change_6m := PFloat.val 0, price_change_1y := PFloat.val 0 }

/-- A minimal well-formed snapshot (`ma50`/`ma200` keys present, every
other optional key missing), for concrete instantiations. -/
def sampleSnapshot : SecuritySnapshot :=
  { current_price := PFloat.val 100, company_name := "X"
    ma50 := some (PFloat.val 100), ma200 := some (PFloat.val 100) }

/-- The per-ticker analysis result of `sampleSnapshot` with no headlines
and the default analyst info, spelled out value by value. -/
def sampleResult : AnalysisResult :=
  { current_price := PFloat.val 100, ma50 := PFloat.val 100, ma200 := PFloat.val 100
    ma20 := PFloat.val 100, momentum := "Strong Bearish", sentiment_score := 0
    sentiment := "Neutral", analyst_consensus := "Hold", analyst_score := 0
    recommendation :=
      { action := "Hold", confidence := "Medium"
        reasoning := "Mixed signals, wait for clearer direction", score := -0.375 }
    technical_analysis :=
      { score := 0.5, signals := ["RSI Neutral", "Mixed Signals"]
        rsi := PFloat.val 50, trend := "Uptrend" }
    price_changes := zeroPriceChanges, headlines := [], company_name := "X"
    rsi := PFloat.val 50, volatility := PFloat.val 0, volume := PFloat.val 0
    avg_volume := PFloat.val 0 }

/-- The portfolio metrics of the one-element result set `[sampleResult]`. -/
def sampleMetrics : PortfolioMetrics :=
  { total_stocks := 1, strong_buy_recommendations := 0, buy_recommendations := 0
    hold_recommendations := 1, sell_recommendations := 0
    strong_sell_recommendations := 0, avg_sentiment := 0
    strong_bullish_momentum := 0, bullish_momentum := 0, neutral_momentum := 0
    bearish_momentum := 0, strong_bearish_momentum := 1, uptrend_count := 1
    downtrend_count := 0, sideways_count := 0 }

/-! Helper lemmas shared by the claim theorems. -/

/-- `generate_recommendation` is five-way banding of `recTotal`, each band
carrying its fixed action/confidence/rationale and the raw total. -/
theorem generate_recommendation_eq (momentum sentiment : String) (analyst_score : ℚ)
    (t : TechnicalResult) (pc : PriceChanges) :
    generate_recommendation momentum sentiment analyst_score t pc =
      (if recTotal momentum sentiment analyst_score t pc > 1.5 then
        { action := "Strong Buy", confidence := "High"
          reasoning := "Multiple positive signals across all indicators"
          score := recTotal momentum sentiment analyst_score t pc }
      else if recTotal momentum sentiment analyst_score t pc > 0.5 then
        { action := "Buy", confidence := "Medium"
          reasoning := "Generally positive signals with some mixed indicators"
          score := recTotal momentum sentiment analyst_score t pc }
      else if recTotal momentum sentiment analyst_score t pc > -0.5 then
        { action := "Hold", confidence := "Medium"
          reasoning := "Mixed signals, wait for clearer direction"
          score := recTotal momentum sentiment analyst_score t pc }
      else if recTotal momentum sentiment analyst_score t pc > -1.5 then
        { action := "Consider Selling", confidence := "Medium"
          reasoning := "Generally negative signals with some mixed indicators"
          score := recTotal momentum sentiment analyst_score t pc }
      else
        { action := "Strong Sell", confidence := "High"
          reasoning := "Multiple negative signals across all indicators"
          score := recTotal momentum sentiment analyst_score t pc }) := rfl

/-- The returned `score` field is always the weighted total. -/
theorem generate_recommendation_score (momentum sentiment : String) (analyst_score : ℚ)
    (t : TechnicalResult) (pc : PriceChanges) :
    (generate_recommendation momentum sentiment analyst_score t pc).score =
      recTotal momentum sentiment analyst_score t pc := by
  rw [generate_recommendation_eq]
  split
  · rfl
  · split
    · rfl
    · split
      · rfl
      · split <;> rfl

/-- The returned action is always one of the five action labels. -/
theorem generate_recommendation_action_mem (momentum sentiment : String)
    (analyst_score : ℚ) (t : TechnicalResult) (pc : PriceChanges) :
    (generate_recommendation momentum sentiment analyst_score t pc).action ∈
      ["Strong Buy", "Buy", "Hold", "Consider Selling", "Strong Sell"] := by
  rw [generate_recommendation_eq]
  split
  · simp
  · split
    · simp
    · split
      · simp
      · split <;> simp

/-- C5: For every empty headline list, the Sentiment Aggregator returns
exactly the fixed neutral summary `{compound_score: 0, sentiment: Neutral,
positive_score: 0, negative_score: 0, neutral_score: 0}`, without raising
an error. -/
theorem analyze_sentiment_empty :
    analyze_sentiment [] =
      { compound_score := 0, sentiment := "Neutral", positive_score := 0
        negative_score := 0, neutral_score := 0 } := rfl

/-- C4: For every input to the Momentum Classifier where `ma50` or `ma200`
is the not-a-number unknown sentinel, the classifier returns `Neutral`,
regardless of the values of `current_price`, `rsi`, and `volatility`. -/
theorem calculate_momentum_signal_nan (ma50 ma200 current_price rsi volatility : PFloat)
    (h : ma50 = PFloat.nan ∨ ma200 = PFloat.nan) :
    calculate_momentum_signal ma50 ma200 current_price rsi volatility = "Neutral" := by
  rcases h with h | h <;> subst h
  · rfl
  · cases ma50 <;> rfl

/-- Witness for C4 at a concrete input: `ma200 = NaN`, every other field an
ordinary number. -/
theorem calculate_momentum_signal_nan_witness :
    calculate_momentum_signal (PFloat.val 145) PFloat.nan (PFloat.val 150)
      (PFloat.val 25) (PFloat.val 0.03) = "Neutral" :=
  calculate_momentum_signal_nan (PFloat.val 145) PFloat.nan (PFloat.val 150)
    (PFloat.val 25) (PFloat.val 0.03) (Or.inr rfl)

/-- C7: The Momentum Classifier's output does not depend on its
`volatility` parameter: two invocations agreeing on `ma50`, `ma200`,
`current_price`, and `rsi` return the same label for any two volatilities. -/
theorem calculate_momentum_signal_volatility_irrelevant
    (ma50 ma200 current_price rsi v v' : PFloat) :
    calculate_momentum_signal ma50 ma200 current_price rsi v =
      calculate_momentum_signal ma50 ma200 current_price rsi v' := rfl

/-- C6: For every non-empty headline list, the Sentiment Aggregator
classifies the mean compound score `c` with strict thresholds:
`c > 0.20` gives Very Positive, else `c > 0.05` gives Positive, else
`c < -0.20` gives Very Negative, else `c < -0.05` gives Negative, else
Neutral; the exact boundary values 0.20, 0.05, -0.05, -0.20 fall to the
less extreme branch. -/
theorem analyze_sentiment_thresholds (scores : List Polarity) (h : scores ≠ []) :
    (listMean (scores.map Polarity.compound) > 0.2 →
      (analyze_sentiment scores).sentiment = "Very Positive") ∧
    (listMean (scores.map Polarity.compound) ≤ 0.2 →
      listMean (scores.map Polarity.compound) > 0.05 →
      (analyze_sentiment scores).sentiment = "Positive") ∧
    (listMean (scores.map Polarity.compound) < -0.2 →
      (analyze_sentiment scores).sentiment = "Very Negative") ∧
    (-0.2 ≤ listMean (scores.map Polarity.compound) →
      listMean (scores.map Polarity.compound) < -0.05 →
      (analyze_sentiment scores).sentiment = "Negative") ∧
    (-0.05 ≤ listMean (scores.map Polarity.compound) →
      listMean (scores.map Polarity.compound) ≤ 0.05 →
      (analyze_sentiment scores).sentiment = "Neutral") := by
  have he : scores.isEmpty = false := by
    cases scores with
    | nil => exact absurd rfl h
    | cons a t => rfl
  have hs : (analyze_sentiment scores).sentiment =
      (if listMean (scores.map Polarity.compound) > 0.2 then "Very Positive"
       else if listMean (scores.map Polarity.compound) > 0.05 then "Positive"
       else if listMean (scores.map Polarity.compound) < -0.2 then "Very Negative"
       else if listMean (scores.map Polarity.compound) < -0.05 then "Negative"
       else "Neutral") := by
    simp only [analyze_sentiment, he, Bool.false_eq_true, if_false]
  refine ⟨fun h1 => ?_, fun h1 h2 => ?_, fun h1 => ?_, fun h1 h2 => ?_, fun h1 h2 => ?_⟩ <;>
    rw [hs]
  · rw [if_pos h1]
  · rw [if_neg (by linarith), if_pos h2]
  · rw [if_neg (by linarith), if_neg (by linarith), if_pos h1]
  · rw [if_neg (by linarith), if_neg (by linarith), if_neg (by linarith), if_pos h2]
  · rw [if_neg (by linarith), if_neg (by linarith), if_neg (by linarith),
      if_neg (by linarith)]

/-- Witness for C6 at concrete inputs: a single headline of compound score
exactly 0.20 classifies as Positive (the less extreme branch), and one of
exactly -0.05 classifies as Neutral. -/
theorem analyze_sentiment_thresholds_witness :
    (analyze_sentiment [{ compound := 0.2, pos := 0, neg := 0, neu := 1 }]).sentiment
        = "Positive" ∧
    (analyze_sentiment [{ compound := -0.05, pos := 0, neg := 0, neu := 1 }]).sentiment
        = "Neutral" := by
  constructor
  · exact (analyze_sentiment_thresholds
      [{ compound := 0.2, pos := 0, neg := 0, neu := 1 }] (by simp)).2.1
      (by norm_num [listMean]) (by norm_num [listMean])
  · exact (analyze_sentiment_thresholds
      [{ compound := -0.05, pos := 0, neg := 0, neu := 1 }] (by simp)).2.2.2.2
      (by norm_num [listMean]) (by norm_num [listMean])

/-- C1 (counterexample): at momentum Strong Bullish (2), sentiment Very
Positive (2), analyst score 0.5, technical score 2 and zero price changes,
the weighted total is exactly 1.5 and the returned action is Buy — not
Hold as the claim states (and not Strong Buy). -/
theorem recommendation_band_counterexample :
    (generate_recommendation "Strong Bullish" "Very Positive" 0.5
        { score := 2, signals := [], rsi := PFloat.val 50, trend := "Uptrend" }
        zeroPriceChanges).score = 1.5 ∧
    (generate_recommendation "Strong Bullish" "Very Positive" 0.5
        { score := 2, signals := [], rsi := PFloat.val 50, trend := "Uptrend" }
        zeroPriceChanges).action = "Buy" := by
  have ht : recTotal "Strong Bullish" "Very Positive" 0.5
      { score := 2, signals := [], rsi := PFloat.val 50, trend := "Uptrend" }
      zeroPriceChanges = 1.5 := by
    norm_num [recTotal, momentum_scores, sentiment_scores, zeroPriceChanges,
      PFloat.gt, PFloat.lt]
  constructor
  · rw [generate_recommendation_score, ht]
  · rw [generate_recommendation_eq, ht]
    norm_num

/-- C1 (amended): band boundaries are exclusive at the lower edge of the
band above: a weighted total of exactly 1.5 returns Buy (the band directly
below Strong Buy), and a total of exactly 0.5 returns Hold (the band
directly below Buy). -/
theorem recommendation_band_boundaries (momentum sentiment : String) (a : ℚ)
    (t : TechnicalResult) (pc : PriceChanges) :
    ((generate_recommendation momentum sentiment a t pc).score = 1.5 →
      (generate_recommendation momentum sentiment a t pc).action = "Buy") ∧
    ((generate_recommendation momentum sentiment a t pc).score = 0.5 →
      (generate_recommendation momentum sentiment a t pc).action = "Hold") := by
  have hsc := generate_recommendation_score momentum sentiment a t pc
  constructor
  · intro h
    rw [hsc] at h
    rw [generate_recommendation_eq, h]
    norm_num
  · intro h
    rw [hsc] at h
    rw [generate_recommendation_eq, h]
    norm_num

/-- Witness for the amended C1 at concrete inputs reaching both exact
boundary totals. -/
theorem recommendation_band_boundaries_witness :
    (generate_recommendation "Strong Bullish" "Very Positive" 0.5
        { score := 2, signals := [], rsi := PFloat.val 50, trend := "Uptrend" }
        zeroPriceChanges).action = "Buy" ∧
    (generate_recommendation "Bullish" "Neutral" 0
        { score := 1, signals := [], rsi := PFloat.val 50, trend := "Uptrend" }
        zeroPriceChanges).action = "Hold" := by
  constructor
  · exact (recommendation_band_boundaries "Strong Bullish" "Very Positive" 0.5
      { score := 2, signals := [], rsi := PFloat.val 50, trend := "Uptrend" }
      zeroPriceChanges).1 (by
        rw [generate_recommendation_score]
        norm_num [recTotal, momentum_scores, sentiment_scores, zeroPriceChanges,
          PFloat.gt, PFloat.lt])
  · exact (recommendation_band_boundaries "Bullish" "Neutral" 0
      { score := 1, signals := [], rsi := PFloat.val 50, trend := "Uptrend" }
      zeroPriceChanges).2 (by
        rw [generate_recommendation_score]
        simp [recTotal, momentum_scores, sentiment_scores, zeroPriceChanges,
          PFloat.gt, PFloat.lt]
        try norm_num)

/-- C2: For every valid input, the returned score equals exactly
`0.25*M + 0.20*S + 0.20*A + 0.25*T + 0.10*P`, with M the momentum label
mapped via {Strong Bullish:2, Bullish:1, Neutral:0, Bearish:-1,
Strong Bearish:-2}, S the sentiment label mapped via the same scale, A the
analyst score, T the technical score, and P the price score: (+0.5 if the
1-day change > 2, -0.5 if < -2) plus (+0.3 if the 5-day change > 5, -0.3
if < -5), the two contributions independent and additive. -/
theorem recommendation_score_linear (momentum sentiment : String) (M S : ℤ) (a : ℚ)
    (t : TechnicalResult) (pc : PriceChanges) (d1 d5 : ℚ)
    (hM : (momentum, M) ∈ ([("Strong Bullish", 2), ("Bullish", 1), ("Neutral", 0),
      ("Bearish", -1), ("Strong Bearish", -2)] : List (String × ℤ)))
    (hS : (sentiment, S) ∈ ([("Very Positive", 2), ("Positive", 1), ("Neutral", 0),
      ("Negative", -1), ("Very Negative", -2)] : List (String × ℤ)))
    (h1 : pc.price_change_1d = PFloat.val d1)
    (h5 : pc.price_change_5d = PFloat.val d5) :
    (generate_recommendation momentum sentiment a t pc).score =
      0.25 * M + 0.20 * S + 0.20 * a + 0.25 * t.score +
        0.10 * ((if d1 > 2 then (0.5 : ℚ) else if d1 < -2 then -0.5 else 0) +
                (if d5 > 5 then (0.3 : ℚ) else if d5 < -5 then -0.3 else 0)) := by
  rw [generate_recommendation_score]
  simp only [List.mem_cons, List.not_mem_nil, or_false, Prod.mk.injEq] at hM hS
  rcases hM with ⟨rfl, rfl⟩ | ⟨rfl, rfl⟩ | ⟨rfl, rfl⟩ | ⟨rfl, rfl⟩ | ⟨rfl, rfl⟩ <;>
    rcases hS with ⟨rfl, rfl⟩ | ⟨rfl, rfl⟩ | ⟨rfl, rfl⟩ | ⟨rfl, rfl⟩ | ⟨rfl, rfl⟩ <;>
    · simp [recTotal, momentum_scores, sentiment_scores, h1, h5, PFloat.gt, PFloat.lt]
      ring_nf

/-- Witness for C2 at a concrete input exercising both price branches. -/
theorem recommendation_score_linear_witness :
    (generate_recommendation "Bullish" "Negative" (1/2)
        { score := 3/2, signals := [], rsi := PFloat.val 50, trend := "Uptrend" }
        { price_change_1d := PFloat.val 3, price_change_5d := PFloat.val (-6)
          price_change_1m := PFloat.val 0, price_change_3m := PFloat.val 0
          price_change_6m := PFloat.val 0, price_change_1y := PFloat.val 0 }).score =
      0.25 * ((1 : ℤ) : ℚ) + 0.20 * ((-1 : ℤ) : ℚ) + 0.20 * (1/2) + 0.25 * (3/2 : ℚ) +
        0.10 * ((if (3 : ℚ) > 2 then (0.5 : ℚ) else if (3 : ℚ) < -2 then -0.5 else 0) +
                (if (-6 : ℚ) > 5 then (0.3 : ℚ) else if (-6 : ℚ) < -5 then -0.3 else 0)) :=
  recommendation_score_linear "Bullish" "Negative" 1 (-1) (1/2)
    { score := 3/2, signals := [], rsi := PFloat.val 50, trend := "Uptrend" }
    { price_change_1d := PFloat.val 3, price_change_5d := PFloat.val (-6)
      price_change_1m := PFloat.val 0, price_change_3m := PFloat.val 0
      price_change_6m := PFloat.val 0, price_change_1y := PFloat.val 0 }
    3 (-6) (by decide) (by decide) rfl rfl

/-- The RSI rule contributes exactly `rsiContrib` (branch view of the
source's first accumulator step). -/
theorem rsi_score_base (s : SecuritySnapshot) :
    (if rsiOversoldCond s then (1 : ℚ) else if rsiOverboughtCond s then -1 else 0.5) =
      rsiContrib s := rfl

/-- Threading the trend rule adds exactly `trendContrib`. -/
theorem trend_score_step (s : SecuritySnapshot) (q : ℚ) :
    (if strongUptrendCond s then q + 2
     else if uptrendCond s then q + 1
     else if strongDowntrendCond s then q - 2
     else if downtrendCond s then q - 1
     else q) = q + trendContrib s := by
  unfold trendContrib
  cases strongUptrendCond s <;> cases uptrendCond s <;>
    cases strongDowntrendCond s <;> cases downtrendCond s <;> simp <;> ring

/-- Threading the volume rule adds exactly `volumeContrib`. -/
theorem volume_score_step (s : SecuritySnapshot) (q : ℚ) :
    (if highVolumeCond s then q + 0.5
     else if lowVolumeCond s then q - 0.5
     else q) = q + volumeContrib s := by
  unfold volumeContrib
  cases highVolumeCond s <;> cases lowVolumeCond s <;> simp <;> ring

/-- Threading the volatility rule adds exactly `volaContrib`. -/
theorem vola_score_step (s : SecuritySnapshot) (q : ℚ) :
    (if highVolatilityCond s then q + 0.3 else q) = q + volaContrib s := by
  unfold volaContrib
  cases highVolatilityCond s <;> simp

/-- The RSI rule emits exactly the singleton `rsiTag`. -/
theorem rsi_signals_base (s : SecuritySnapshot) :
    (if rsiOversoldCond s then ["RSI Oversold"]
     else if rsiOverboughtCond s then ["RSI Overbought"]
     else ["RSI Neutral"]) = [rsiTag s] := by
  unfold rsiTag
  cases rsiOversoldCond s <;> cases rsiOverboughtCond s <;> simp

/-- The trend rule appends exactly the singleton `trendTag`. -/
theorem trend_signals_step (s : SecuritySnapshot) (l : List String) :
    (if strongUptrendCond s then l ++ ["Strong Uptrend"]
     else if uptrendCond s then l ++ ["Uptrend"]
     else if strongDowntrendCond s then l ++ ["Strong Downtrend"]
     else if downtrendCond s then l ++ ["Downtrend"]
     else l ++ ["Mixed Signals"]) = l ++ [trendTag s] := by
  unfold trendTag
  cases strongUptrendCond s <;> cases uptrendCond s <;>
    cases strongDowntrendCond s <;> cases downtrendCond s <;> simp

/-- The volume rule appends exactly `volumeTags`. -/
theorem volume_signals_step (s : SecuritySnapshot) (l : List String) :
    (if highVolumeCond s then l ++ ["High Volume"]
     else if lowVolumeCond s then l ++ ["Low Volume"]
     else l) = l ++ volumeTags s := by
  unfold volumeTags
  cases highVolumeCond s <;> cases lowVolumeCond s <;> simp

/-- The volatility rule appends exactly `volatilityTags`. -/
theorem vola_signals_step (s : SecuritySnapshot) (l : List String) :
    (if highVolatilityCond s then l ++ ["High Volatility"] else l) =
      l ++ volatilityTags s := by
  unfold volatilityTags
  cases highVolatilityCond s <;> simp

/-- Decomposition of the technical score into its four rule contributions. -/
theorem technical_score_decomp (s : SecuritySnapshot) :
    (calculate_technical_score s).score =
      rsiContrib s + trendContrib s + volumeContrib s + volaContrib s := by
  simp only [calculate_technical_score, rsi_score_base, trend_score_step,
    volume_score_step, vola_score_step]

/-- Decomposition of the signals list into the four rule tag groups. -/
theorem technical_signals_decomp (s : SecuritySnapshot) :
    (calculate_technical_score s).signals =
      [rsiTag s] ++ [trendTag s] ++ volumeTags s ++ volatilityTags s := by
  simp only [calculate_technical_score, rsi_signals_base, trend_signals_step,
    volume_signals_step, vola_signals_step]

/-- The trend label is banding of the final score. -/
theorem technical_trend_eq (s : SecuritySnapshot) :
    (calculate_technical_score s).trend =
      (if (calculate_technical_score s).score > 0 then "Uptrend"
       else if (calculate_technical_score s).score < 0 then "Downtrend"
       else "Sideways") := rfl

/-- C8: For every SecuritySnapshot, the Technical Scorer's signals list is
produced in a fixed deterministic order: exactly one RSI tag first, then
exactly one trend tag, then a volume tag only if its threshold triggers,
then "High Volatility" only if `volatility > 0.05`. -/
theorem technical_signals_order (s : SecuritySnapshot) :
    (calculate_technical_score s).signals =
      rsiTag s :: trendTag s :: (volumeTags s ++ volatilityTags s) ∧
    rsiTag s ∈ ["RSI Oversold", "RSI Overbought", "RSI Neutral"] ∧
    trendTag s ∈ ["Strong Uptrend", "Uptrend", "Strong Downtrend", "Downtrend",
      "Mixed Signals"] ∧
    (highVolumeCond s = true → volumeTags s = ["High Volume"]) ∧
    (highVolumeCond s = false → lowVolumeCond s = true → volumeTags s = ["Low Volume"]) ∧
    (highVolumeCond s = false → lowVolumeCond s = false → volumeTags s = []) ∧
    (highVolatilityCond s = true → volatilityTags s = ["High Volatility"]) ∧
    (highVolatilityCond s = false → volatilityTags s = []) := by
  refine ⟨?_, ?_, ?_, fun h => ?_, fun h h' => ?_, fun h h' => ?_, fun h => ?_,
    fun h => ?_⟩
  · rw [technical_signals_decomp]
    simp
  · unfold rsiTag
    cases rsiOversoldCond s <;> cases rsiOverboughtCond s <;> simp
  · unfold trendTag
    cases strongUptrendCond s <;> cases uptrendCond s <;>
      cases strongDowntrendCond s <;> cases downtrendCond s <;> simp
  · unfold volumeTags
    rw [if_pos h]
  · unfold volumeTags
    rw [if_neg, if_pos h']
    simp [h]
  · unfold volumeTags
    rw [if_neg, if_neg] <;> simp [h, h']
  · unfold volatilityTags
    rw [if_pos h]
  · unfold volatilityTags
    rw [if_neg]
    simp [h]

/-- Witness for C8 at a concrete snapshot triggering the high-volume and
high-volatility tags. -/
theorem technical_signals_order_witness :
    (calculate_technical_score
        { current_price := PFloat.val 150, company_name := "X"
          ma20 := some (PFloat.val 148), ma50 := some (PFloat.val 145)
          ma200 := some (PFloat.val 140), rsi := some (PFloat.val 25)
          volatility := some (PFloat.val 0.06), volume := some (PFloat.val 100)
          avg_volume := some (PFloat.val 50) }).signals =
      rsiTag
          { current_price := PFloat.val 150, company_name := "X"
            ma20 := some (PFloat.val 148), ma50 := some (PFloat.val 145)
            ma200 := some (PFloat.val 140), rsi := some (PFloat.val 25)
            volatility := some (PFloat.val 0.06), volume := some (PFloat.val 100)
            avg_volume := some (PFloat.val 50) } ::
        trendTag
            { current_price := PFloat.val 150, company_name := "X"
              ma20 := some (PFloat.val 148), ma50 := some (PFloat.val 145)
              ma200 := some (PFloat.val 140), rsi := some (PFloat.val 25)
              volatility := some (PFloat.val 0.06), volume := some (PFloat.val 100)
              avg_volume := some (PFloat.val 50) } ::
          (volumeTags
              { current_price := PFloat.val 150, company_name := "X"
                ma20 := some (PFloat.val 148), ma50 := some (PFloat.val 145)
                ma200 := some (PFloat.val 140), rsi := some (PFloat.val 25)
                volatility := some (PFloat.val 0.06), volume := some (PFloat.val 100)
                avg_volume := some (PFloat.val 50) } ++
            volatilityTags
              { current_price := PFloat.val 150, company_name := "X"
                ma20 := some (PFloat.val 148), ma50 := some (PFloat.val 145)
                ma200 := some (PFloat.val 140), rsi := some (PFloat.val 25)
                volatility := some (PFloat.val 0.06), volume := some (PFloat.val 100)
                avg_volume := some (PFloat.val 50) }) ∧
    volumeTags
        { current_price := PFloat.val 150, company_name := "X"
          ma20 := some (PFloat.val 148), ma50 := some (PFloat.val 145)
          ma200 := some (PFloat.val 140), rsi := some (PFloat.val 25)
          volatility := some (PFloat.val 0.06), volume := some (PFloat.val 100)
          avg_volume := some (PFloat.val 50) } = ["High Volume"] ∧
    volatilityTags
        { current_price := PFloat.val 150, company_name := "X"
          ma20 := some (PFloat.val 148), ma50 := some (PFloat.val 145)
          ma200 := some (PFloat.val 140), rsi := some (PFloat.val 25)
          volatility := some (PFloat.val 0.06), volume := some (PFloat.val 100)
          avg_volume := some (PFloat.val 50) } = ["High Volatility"] := by
  refine ⟨(technical_signals_order _).1, (technical_signals_order _).2.2.2.1 ?_,
    (technical_signals_order _).2.2.2.2.2.2.1 ?_⟩
  · norm_num [highVolumeCond, PFloat.gt, PFloat.mul]
  · norm_num [highVolatilityCond, PFloat.gt]

/-- C10: implicit invariants of the Technical Scorer: the score lies in
[-3.5, 3.8]; each rule contributes from its finite set (RSI one of
{-1, 0.5, 1}, trend one of {-2, -1, 0, 1, 2}, volume one of {-0.5, 0, 0.5},
volatility one of {0, 0.3}) and the score is their sum; the signals list
has between 2 and 4 tags; and the trend label is Uptrend exactly when the
score is positive, Downtrend exactly when negative, Sideways exactly when
zero. -/
theorem technical_score_invariants (s : SecuritySnapshot) :
    (-3.5 ≤ (calculate_technical_score s).score ∧
      (calculate_technical_score s).score ≤ 3.8) ∧
    rsiContrib s ∈ ({-1, 0.5, 1} : Set ℚ) ∧
    trendContrib s ∈ ({-2, -1, 0, 1, 2} : Set ℚ) ∧
    volumeContrib s ∈ ({-0.5, 0, 0.5} : Set ℚ) ∧
    volaContrib s ∈ ({0, 0.3} : Set ℚ) ∧
    (calculate_technical_score s).score =
      rsiContrib s + trendContrib s + volumeContrib s + volaContrib s ∧
    (2 ≤ (calculate_technical_score s).signals.length ∧
      (calculate_technical_score s).signals.length ≤ 4) ∧
    ((calculate_technical_score s).trend = "Uptrend" ↔
      (calculate_technical_score s).score > 0) ∧
    ((calculate_technical_score s).trend = "Downtrend" ↔
      (calculate_technical_score s).score < 0) ∧
    ((calculate_technical_score s).trend = "Sideways" ↔
      (calculate_technical_score s).score = 0) := by
  have h1 : rsiContrib s ∈ ({-1, 0.5, 1} : Set ℚ) := by
    unfold rsiContrib
    cases rsiOversoldCond s <;> cases rsiOverboughtCond s <;> simp
  have h2 : trendContrib s ∈ ({-2, -1, 0, 1, 2} : Set ℚ) := by
    unfold trendContrib
    cases strongUptrendCond s <;> cases uptrendCond s <;>
      cases strongDowntrendCond s <;> cases downtrendCond s <;> simp
  have h3 : volumeContrib s ∈ ({-0.5, 0, 0.5} : Set ℚ) := by
    unfold volumeContrib
    cases highVolumeCond s <;> cases lowVolumeCond s <;> simp
  have h4 : volaContrib s ∈ ({0, 0.3} : Set ℚ) := by
    unfold volaContrib
    cases highVolatilityCond s <;> simp
  have hd := technical_score_decomp s
  have hbounds : -3.5 ≤ (calculate_technical_score s).score ∧
      (calculate_technical_score s).score ≤ 3.8 := by
    rw [hd]
    simp only [Set.mem_insert_iff, Set.mem_singleton_iff] at h1 h2 h3 h4
    rcases h1 with h1 | h1 | h1 <;> rcases h2 with h2 | h2 | h2 | h2 | h2 <;>
      rcases h3 with h3 | h3 | h3 <;> rcases h4 with h4 | h4 <;>
      rw [h1, h2, h3, h4] <;> norm_num
  have hlen : 2 ≤ (calculate_technical_score s).signals.length ∧
      (calculate_technical_score s).signals.length ≤ 4 := by
    rw [technical_signals_decomp]
    have hv : (volumeTags s).length ≤ 1 := by
      unfold volumeTags
      cases highVolumeCond s <;> cases lowVolumeCond s <;> simp
    have hw : (volatilityTags s).length ≤ 1 := by
      unfold volatilityTags
      cases highVolatilityCond s <;> simp
    simp only [List.length_append, List.length_cons, List.length_nil]
    omega
  have htr := technical_trend_eq s
  refine ⟨hbounds, h1, h2, h3, h4, hd, hlen, ?_, ?_, ?_⟩
  · rcases lt_trichotomy ((calculate_technical_score s).score) 0 with h | h | h
    · rw [htr, if_neg (by linarith), if_pos h]
      constructor
      · intro hc
        exact absurd hc (by decide)
      · intro hc
        linarith
    · rw [htr, if_neg (by simp [h]), if_neg (by simp [h])]
      constructor
      · intro hc
        exact absurd hc (by decide)
      · intro hc
        simp [h] at hc
    · rw [htr, if_pos h]
      simp [h]
  · rcases lt_trichotomy ((calculate_technical_score s).score) 0 with h | h | h
    · rw [htr, if_neg (by linarith), if_pos h]
      simp [h]
    · rw [htr, if_neg (by simp [h]), if_neg (by simp [h])]
      constructor
      · intro hc
        exact absurd hc (by decide)
      · intro hc
        simp [h] at hc
    · rw [htr, if_pos h]
      constructor
      · intro hc
        exact absurd hc (by decide)
      · intro hc
        linarith
  · rcases lt_trichotomy ((calculate_technical_score s).score) 0 with h | h | h
    · rw [htr, if_neg (by linarith), if_pos h]
      constructor
      · intro hc
        exact absurd hc (by decide)
      · intro hc
        linarith
    · rw [htr, if_neg (by simp [h]), if_neg (by simp [h])]
      simp [h]
    · rw [htr, if_pos h]
      constructor
      · intro hc
        exact absurd hc (by decide)
      · intro hc
        linarith

/-- Concrete evaluation of the per-ticker pipeline on `sampleSnapshot`. -/
theorem analyzeTicker_sample :
    analyzeTicker sampleSnapshot [] { consensus := "Hold", score := 0 } =
      some sampleResult := by
  have hm : calculate_momentum_signal (PFloat.val 100) (PFloat.val 100) (PFloat.val 100)
      (PFloat.val 50) (PFloat.val 0) = "Strong Bearish" := by
    simp [calculate_momentum_signal, PFloat.gt, PFloat.lt, PFloat.isna]
    try norm_num
    try simp
    try norm_num
  have htech : calculate_technical_score sampleSnapshot =
      { score := 0.5, signals := ["RSI Neutral", "Mixed Signals"]
        rsi := PFloat.val 50, trend := "Uptrend" } := by
    norm_num [calculate_technical_score, sampleSnapshot, rsiOversoldCond,
      rsiOverboughtCond, strongUptrendCond, uptrendCond, strongDowntrendCond,
      downtrendCond, highVolumeCond, lowVolumeCond, highVolatilityCond,
      PFloat.gt, PFloat.lt, PFloat.mul]
  have hsent : analyze_sentiment [] =
      { compound_score := 0, sentiment := "Neutral", positive_score := 0
        negative_score := 0, neutral_score := 0 } := rfl
  have htot : recTotal "Strong Bearish" "Neutral" 0
      { score := 0.5, signals := ["RSI Neutral", "Mixed Signals"]
        rsi := PFloat.val 50, trend := "Uptrend" }
      { price_change_1d := PFloat.val 0, price_change_5d := PFloat.val 0
        price_change_1m := PFloat.val 0, price_change_3m := PFloat.val 0
        price_change_6m := PFloat.val 0, price_change_1y := PFloat.val 0 } = -0.375 := by
    simp [recTotal, momentum_scores, sentiment_scores, PFloat.gt, PFloat.lt]
    try norm_num
  have hrec : generate_recommendation "Strong Bearish" "Neutral" 0
      { score := 0.5, signals := ["RSI Neutral", "Mixed Signals"]
        rsi := PFloat.val 50, trend := "Uptrend" }
      { price_change_1d := PFloat.val 0, price_change_5d := PFloat.val 0
        price_change_1m := PFloat.val 0, price_change_3m := PFloat.val 0
        price_change_6m := PFloat.val 0, price_change_1y := PFloat.val 0 } =
      { action := "Hold", confidence := "Medium"
        reasoning := "Mixed signals, wait for clearer direction", score := -0.375 } := by
    rw [generate_recommendation_eq, htot]
    norm_num
  unfold analyzeTicker
  rw [show sampleSnapshot.ma50 = some (PFloat.val 100) from rfl,
    show sampleSnapshot.ma200 = some (PFloat.val 100) from rfl]
  simp only [show sampleSnapshot.current_price = PFloat.val 100 from rfl,
    show sampleSnapshot.company_name = "X" from rfl,
    show sampleSnapshot.ma20 = none from rfl,
    show sampleSnapshot.rsi = none from rfl,
    show sampleSnapshot.volatility = none from rfl,
    show sampleSnapshot.volume = none from rfl,
    show sampleSnapshot.avg_volume = none from rfl,
    show sampleSnapshot.price_change_1d = none from rfl,
    show sampleSnapshot.price_change_5d = none from rfl,
    show sampleSnapshot.price_change_1m = none from rfl,
    show sampleSnapshot.price_change_3m = none from rfl,
    show sampleSnapshot.price_change_6m = none from rfl,
    show sampleSnapshot.price_change_1y = none from rfl,
    Option.getD_none, Option.getD_some, hm, htech, hsent, hrec]
  simp [sampleResult, zeroPriceChanges]

/-- When the `ma20` key is missing, the technical scorer behaves as if the
key held `current_price`. -/
theorem technical_ma20_default (s : SecuritySnapshot) (h : s.ma20 = none) :
    calculate_technical_score { s with ma20 := some s.current_price } =
      calculate_technical_score s := by
  unfold calculate_technical_score rsiOversoldCond rsiOverboughtCond strongUptrendCond
    uptrendCond strongDowntrendCond downtrendCond highVolumeCond lowVolumeCond
    highVolatilityCond
  simp [h]

/-- C3 (counterexample): a snapshot whose `ma50`/`ma200` keys are absent
crashes the per-ticker pipeline: `analyze_portfolio` subscripts
`stock_info['ma50']` directly, raising `KeyError` (modelled as `none`)
instead of substituting `current_price`. -/
theorem analyzeTicker_missing_ma50_keyerror :
    analyzeTicker { current_price := PFloat.val 100, company_name := "X" } []
      { consensus := "Hold", score := 0 } = none := rfl

/-- C3 (amended): when the `ma50` and `ma200` keys are present (with any
value, NaN included), the per-ticker pipeline never crashes; and for an
absent `ma20` key its consumers substitute `current_price`: the echoed
`ma20` field equals `current_price` and the technical scorer behaves as if
`ma20` held `current_price`.  Only an absent `ma50`/`ma200` key crashes,
because `analyze_portfolio` subscripts those two directly. -/
theorem analyzeTicker_ma_keys_total (s : SecuritySnapshot) (hl : List Polarity)
    (ai : AnalystInfo) (v50 v200 : PFloat)
    (h50 : s.ma50 = some v50) (h200 : s.ma200 = some v200) :
    ∃ r, analyzeTicker s hl ai = some r ∧
      (s.ma20 = none →
        r.ma20 = s.current_price ∧
        r.technical_analysis =
          calculate_technical_score { s with ma20 := some s.current_price }) := by
  unfold analyzeTicker
  rw [h50, h200]
  refine ⟨_, rfl, fun h20 => ⟨?_, ?_⟩⟩
  · simp [h20]
  · rw [← h50, ← h200]
    simp [technical_ma20_default s h20]

/-- Witness for the amended C3 at a concrete snapshot whose `ma20` key is
absent. -/
theorem analyzeTicker_ma_keys_total_witness :
    ∃ r, analyzeTicker sampleSnapshot [] { consensus := "Hold", score := 0 } =
        some r ∧
      (sampleSnapshot.ma20 = none →
        r.ma20 = sampleSnapshot.current_price ∧
        r.technical_analysis =
          calculate_technical_score
            { sampleSnapshot with ma20 := some sampleSnapshot.current_price }) :=
  analyzeTicker_ma_keys_total sampleSnapshot [] { consensus := "Hold", score := 0 }
    (PFloat.val 100) (PFloat.val 100) rfl rfl

/-- Any result produced by the per-ticker pipeline carries one of the five
recommendation actions. -/
theorem analyzeTicker_action_mem (s : SecuritySnapshot) (hl : List Polarity)
    (ai : AnalystInfo) (r : AnalysisResult) (h : analyzeTicker s hl ai = some r) :
    r.recommendation.action ∈
      ["Strong Buy", "Buy", "Hold", "Consider Selling", "Strong Sell"] := by
  unfold analyzeTicker at h
  cases h50 : s.ma50 with
  | none =>
    rw [h50] at h
    exact absurd h (by simp)
  | some v50 =>
    cases h200 : s.ma200 with
    | none =>
      rw [h50, h200] at h
      exact absurd h (by simp)
    | some v200 =>
      rw [h50, h200, Option.some.injEq] at h
      subst h
      exact generate_recommendation_action_mem _ _ _ _ _

/-- Counting the five action labels exhausts a list drawn from them. -/
theorem count_five_actions (l : List String)
    (h : ∀ x ∈ l, x ∈ ["Strong Buy", "Buy", "Hold", "Consider Selling", "Strong Sell"]) :
    l.count "Strong Buy" + l.count "Buy" + l.count "Hold" +
      l.count "Consider Selling" + l.count "Strong Sell" = l.length := by
  induction l with
  | nil => rfl
  | cons x t ih =>
    have hx := h x (List.mem_cons_self x t)
    have ih' := ih fun y hy => h y (List.mem_cons_of_mem x hy)
    simp only [List.mem_cons, List.not_mem_nil, or_false] at hx
    rcases hx with rfl | rfl | rfl | rfl | rfl <;>
      simp [List.count_cons] <;> omega

/-- C9: The Portfolio Aggregator applied to an empty result set returns
the empty mapping; applied to N results produced by the per-ticker
pipeline, every count field is at most N and the five recommendation-action
counts sum to exactly N. -/
theorem calculate_portfolio_metrics_counts (results : List AnalysisResult)
    (m : PortfolioMetrics)
    (hall : ∀ r ∈ results, ∃ s hl ai, analyzeTicker s hl ai = some r)
    (hm : calculate_portfolio_metrics results = some m) :
    calculate_portfolio_metrics ([] : List AnalysisResult) = none ∧
    m.strong_buy_recommendations + m.buy_recommendations + m.hold_recommendations +
      m.sell_recommendations + m.strong_sell_recommendations = results.length ∧
    m.total_stocks = results.length ∧
    m.strong_buy_recommendations ≤ results.length ∧
    m.buy_recommendations ≤ results.length ∧
    m.hold_recommendations ≤ results.length ∧
    m.sell_recommendations ≤ results.length ∧
    m.strong_sell_recommendations ≤ results.length ∧
    m.strong_bullish_momentum ≤ results.length ∧
    m.bullish_momentum ≤ results.length ∧
    m.neutral_momentum ≤ results.length ∧
    m.bearish_momentum ≤ results.length ∧
    m.strong_bearish_momentum ≤ results.length ∧
    m.uptrend_count ≤ results.length ∧
    m.downtrend_count ≤ results.length ∧
    m.sideways_count ≤ results.length := by
  unfold calculate_portfolio_metrics at hm
  split at hm
  · exact absurd hm (by simp)
  · rw [Option.some.injEq] at hm
    subst hm
    have hsum : (results.map fun r => r.recommendation.action).count "Strong Buy" +
        (results.map fun r => r.recommendation.action).count "Buy" +
        (results.map fun r => r.recommendation.action).count "Hold" +
        (results.map fun r => r.recommendation.action).count "Consider Selling" +
        (results.map fun r => r.recommendation.action).count "Strong Sell" =
        results.length := by
      rw [← List.length_map results (fun r => r.recommendation.action)]
      refine count_five_actions _ fun x hx => ?_
      obtain ⟨r, hr, rfl⟩ := List.mem_map.mp hx
      obtain ⟨s, hl, ai, hsome⟩ := hall r hr
      exact analyzeTicker_action_mem s hl ai r hsome
    refine ⟨rfl, hsum, rfl, ?_, ?_, ?_, ?_, ?_, ?_, ?_, ?_, ?_, ?_, ?_, ?_, ?_⟩ <;>
      · rw [← List.length_map results]
        exact List.count_le_length _ _

/-- Witness for C9 at the concrete one-element result set produced by the
pipeline on `sampleSnapshot`. -/
theorem calculate_portfolio_metrics_counts_witness :
    calculate_portfolio_metrics ([] : List AnalysisResult) = none ∧
    sampleMetrics.strong_buy_recommendations + sampleMetrics.buy_recommendations +
      sampleMetrics.hold_recommendations + sampleMetrics.sell_recommendations +
      sampleMetrics.strong_sell_recommendations = [sampleResult].length ∧
    sampleMetrics.total_stocks = [sampleResult].length ∧
    sampleMetrics.strong_buy_recommendations ≤ [sampleResult].length ∧
    sampleMetrics.buy_recommendations ≤ [sampleResult].length ∧
    sampleMetrics.hold_recommendations ≤ [sampleResult].length ∧
    sampleMetrics.sell_recommendations ≤ [sampleResult].length ∧
    sampleMetrics.strong_sell_recommendations ≤ [sampleResult].length ∧
    sampleMetrics.strong_bullish_momentum ≤ [sampleResult].length ∧
    sampleMetrics.bullish_momentum ≤ [sampleResult].length ∧
    sampleMetrics.neutral_momentum ≤ [sampleResult].length ∧
    sampleMetrics.bearish_momentum ≤ [sampleResult].length ∧
    sampleMetrics.strong_bearish_momentum ≤ [sampleResult].length ∧
    sampleMetrics.uptrend_count ≤ [sampleResult].length ∧
    sampleMetrics.downtrend_count ≤ [sampleResult].length ∧
    sampleMetrics.sideways_count ≤ [sampleResult].length := by
  refine calculate_portfolio_metrics_counts [sampleResult] sampleMetrics ?_ ?_
  · intro r hr
    rw [List.mem_singleton] at hr
    subst hr
    exact ⟨sampleSnapshot, [], { consensus := "Hold", score := 0 },
      analyzeTicker_sample⟩
  · simp [calculate_portfolio_metrics, sampleResult, sampleMetrics, listMean,
      List.count_cons]
    try norm_num
